import Mathlib

/-!
# Verification of `src/services/priceService.py`

A shallow embedding of the price service: Python floats are modelled as exact
rationals (`ℚ`), the process-wide random source is passed explicitly (each
`random.random()` draw is a rational argument, each `random.randint(a,b)` draw
a natural-number argument), and wall-clock readings (`datetime.now()`) are
explicit parameters.  Python's `round(x, 5)` is banker's rounding (round half
to even) at five decimal places, modelled exactly on `ℚ`.
-/

set_option maxHeartbeats 1000000

/-- Round a rational to the nearest integer, ties to even — the rounding mode
of Python's built-in `round`. -/
def roundHalfEven (x : ℚ) : ℤ :=
  if x - ⌊x⌋ < 1/2 then ⌊x⌋
  else if 1/2 < x - ⌊x⌋ then ⌊x⌋ + 1
  else if ⌊x⌋ % 2 = 0 then ⌊x⌋ else ⌊x⌋ + 1

/-- Python's `round(x, 5)`: round to five decimal places, half to even. -/
def round5 (x : ℚ) : ℚ :=
  (roundHalfEven (x * 100000) : ℚ) / 100000

/-- Whether the character list `pat` occurs contiguously inside `l`. -/
def containsSub (pat : List Char) : List Char → Bool
  | [] => pat.isEmpty
  | c :: t => pat.isPrefixOf (c :: t) || containsSub pat t

/-- Python's `'JPY' in symbol` substring test (priceService.py line 103). -/
def containsJPY (s : String) : Bool :=
  containsSub "JPY".toList s.toList

/-- Per-symbol mutable price state `self.last_prices` (line 34): a map from
symbol to the last stored price, absent before the first call. -/
def PriceState := String → Option ℚ

/-- The fresh state created in `PriceService.__init__` (line 34). -/
def emptyState : PriceState := fun _ => none

/-- A returned quote dict (lines 129-137 / 67-75). -/
structure Quote where
  symbol : String
  price : ℚ
  bid : ℚ
  ask : ℚ
  volume : ℕ
  timestamp : String
  source : String
deriving DecidableEq

/-- The `default_prices` table with fallback 1.0 (lines 85-97). -/
def defaultPrice (s : String) : ℚ :=
  if s = "EUR/USD" then 1.2
  else if s = "GBP/USD" then 1.3
  else if s = "USD/JPY" then 110.00
  else if s = "AUD/USD" then 0.7500
  else if s = "USD/CHF" then 0.9200
  else if s = "EUR/GBP" then 0.8500
  else if s = "EUR/JPY" then 132.00
  else if s = "GBP/JPY" then 143.00
  else 1.0000

/-- Base-price resolution (lines 96-97): the explicit argument when given,
else the catalog default. -/
def resolvedBase (symbol : String) (basePrice? : Option ℚ) : ℚ :=
  basePrice?.getD (defaultPrice symbol)

/-- Volatility by symbol classification (lines 103-108). -/
def volatilityOf (symbol : String) : ℚ :=
  if containsJPY symbol then 0.01 else 0.0001

/-- Pip size by symbol classification (lines 103-108). -/
def pipOf (symbol : String) : ℚ :=
  if containsJPY symbol then 0.01 else 0.0001

/-- Lines 99-119 of `generate_dummy_price`: the clamped new price that is
stored into `last_prices` (before the 5-decimal rounding applied to the
returned `price` field).  `r1` is the `random.random()` draw of line 112. -/
def clampedPrice (symbol : String) (basePrice? : Option ℚ) (state : PriceState)
    (r1 : ℚ) : ℚ :=
  let base_price := resolvedBase symbol basePrice?
  let last_price := (state symbol).getD base_price
  let trend := (base_price - last_price) * 0.001
  let random_change := (r1 - 0.5) * volatilityOf symbol * 2
  let new_price := last_price + trend + random_change
  max (base_price * 0.95) (min (base_price * 1.05) new_price)

/-- `PriceService.generate_dummy_price` (lines 81-137).  `r1` is the
`random.random()` draw (line 112), `k` the `random.randint(1, 3)` spread draw
(line 122), `v` the `random.randint(100, 1000)` volume draw (line 134), and
`now` the ISO string of `datetime.now()` (line 135).  Returns the quote and
the updated `last_prices` state (line 127 stores the unrounded price). -/
def generate_dummy_price (symbol : String) (basePrice? : Option ℚ)
    (state : PriceState) (r1 : ℚ) (k : ℕ) (v : ℕ) (now : String) :
    Quote × PriceState :=
  let new_price := clampedPrice symbol basePrice? state r1
  let spread := pipOf symbol * k
  let bid := new_price - spread / 2
  let ask := new_price + spread / 2
  ({ symbol := symbol
     price := round5 new_price
     bid := round5 bid
     ask := round5 ask
     volume := v
     timestamp := now
     source := "dummy" },
   fun s => if s = symbol then some new_price else state s)

/-- A sequence of successive `generate_dummy_price` calls on one symbol, each
call consuming its own random draws and clock reading, threading the
`last_prices` state. -/
def generateSeq (symbol : String) (basePrice? : Option ℚ) :
    List (ℚ × ℕ × ℕ × String) → PriceState → List Quote × PriceState
  | [], state => ([], state)
  | c :: rest, state =>
    let res := generate_dummy_price symbol basePrice? state c.1 c.2.1 c.2.2.1 c.2.2.2
    let resRest := generateSeq symbol basePrice? rest res.2
    (res.1 :: resRest.1, resRest.2)

/-- `PriceService.get_price` (lines 139-148).  The External Quote Adapter
(`get_real_price`, lines 37-79) is a collaborator returning a quote or `None`;
its result is the `externalResult` parameter.  `get_real_price` never touches
`last_prices`. -/
def get_price (externalResult : Option Quote) (use_real_data : Bool)
    (symbol : String) (basePrice? : Option ℚ) (state : PriceState)
    (r1 : ℚ) (k : ℕ) (v : ℕ) (now : String) : Quote × PriceState :=
  if use_real_data then
    match externalResult with
    | some q => (q, state)
    | none => generate_dummy_price symbol basePrice? state r1 k v now
  else generate_dummy_price symbol basePrice? state r1 k v now

/-! ## Rounding lemmas -/

theorem roundHalfEven_bounds (x : ℚ) :
    ⌊x⌋ ≤ roundHalfEven x ∧ roundHalfEven x ≤ ⌊x⌋ + 1 := by
  unfold roundHalfEven
  split_ifs <;> omega

theorem abs_roundHalfEven_sub (x : ℚ) : |(roundHalfEven x : ℚ) - x| ≤ 1/2 := by
  have h1 : (⌊x⌋ : ℚ) ≤ x := Int.floor_le x
  have h2 : x < ⌊x⌋ + 1 := Int.lt_floor_add_one x
  unfold roundHalfEven
  split_ifs with hA hB hC <;> rw [abs_le] <;> push_cast <;> constructor <;> linarith

theorem roundHalfEven_mono {x y : ℚ} (h : x ≤ y) :
    roundHalfEven x ≤ roundHalfEven y := by
  have hf : ⌊x⌋ ≤ ⌊y⌋ := Int.floor_mono h
  rcases eq_or_lt_of_le hf with heq | hlt
  · have hfr : x - ⌊x⌋ ≤ y - ⌊y⌋ := by
      rw [← heq]
      have : (⌊x⌋ : ℚ) = (⌊x⌋ : ℚ) := rfl
      linarith [show ((⌊x⌋ : ℤ) : ℚ) = ((⌊y⌋ : ℤ) : ℚ) from by rw [heq]]
    unfold roundHalfEven
    rw [← heq]
    split_ifs <;> first | omega | linarith
  · have hx := roundHalfEven_bounds x
    have hy := roundHalfEven_bounds y
    omega

theorem roundHalfEven_add_int (x : ℚ) (m : ℤ) (h : x - ⌊x⌋ ≠ 1/2) :
    roundHalfEven (x + m) = roundHalfEven x + m := by
  unfold roundHalfEven
  rw [Int.floor_add_int]
  have he : x + (m : ℚ) - ((⌊x⌋ + m : ℤ) : ℚ) = x - ⌊x⌋ := by push_cast; ring
  rw [he]
  split_ifs with h1 h2 h3 <;>
    first
      | omega
      | exact absurd (le_antisymm (not_lt.mp h2) (not_lt.mp h1)) h

theorem roundHalfEven_tie_sym (x : ℚ) (m : ℤ) (h : x - ⌊x⌋ = 1/2) :
    roundHalfEven (x + m) - roundHalfEven (x - m) = 2 * m := by
  unfold roundHalfEven
  have hfa : ⌊x + (m : ℚ)⌋ = ⌊x⌋ + m := Int.floor_add_int x m
  have hfs : ⌊x - (m : ℚ)⌋ = ⌊x⌋ - m := by
    rw [sub_eq_add_neg, show -(m : ℚ) = ((-m : ℤ) : ℚ) from by push_cast; ring,
      Int.floor_add_int]
    ring
  rw [hfa, hfs]
  have ha : x + (m : ℚ) - ((⌊x⌋ + m : ℤ) : ℚ) = 1/2 := by push_cast; linarith
  have hs : x - (m : ℚ) - ((⌊x⌋ - m : ℤ) : ℚ) = 1/2 := by push_cast; linarith
  rw [ha, hs]
  norm_num
  split_ifs <;> omega

theorem round5_mono {x y : ℚ} (h : x ≤ y) : round5 x ≤ round5 y := by
  unfold round5
  have hm : x * 100000 ≤ y * 100000 := by linarith
  have := roundHalfEven_mono hm
  have hc : ((roundHalfEven (x * 100000) : ℤ) : ℚ) ≤ (roundHalfEven (y * 100000) : ℚ) := by
    exact_mod_cast this
  linarith

theorem abs_round5_sub (x : ℚ) : |round5 x - x| ≤ 1/200000 := by
  unfold round5
  have h := abs_roundHalfEven_sub (x * 100000)
  have he : (roundHalfEven (x * 100000) : ℚ) / 100000 - x
      = ((roundHalfEven (x * 100000) : ℚ) - x * 100000) / 100000 := by ring
  rw [he, abs_div]
  rw [show |(100000 : ℚ)| = 100000 from by norm_num]
  rw [div_le_div_iff (by norm_num) (by norm_num)]
  linarith

theorem round5_add_int_mul (x : ℚ) (m : ℤ)
    (h : x * 100000 - ⌊x * 100000⌋ ≠ 1/2) :
    round5 (x + m / 100000) = round5 x + m / 100000 := by
  unfold round5
  have he : (x + (m : ℚ) / 100000) * 100000 = x * 100000 + m := by ring
  rw [he, roundHalfEven_add_int _ m h]
  push_cast
  ring

theorem round5_sub_sym (x : ℚ) (m : ℤ) :
    round5 (x + m / 100000) - round5 (x - m / 100000) = 2 * m / 100000 := by
  unfold round5
  have hea : (x + (m : ℚ) / 100000) * 100000 = x * 100000 + m := by ring
  have hes : (x - (m : ℚ) / 100000) * 100000 = x * 100000 - m := by ring
  rw [hea, hes]
  by_cases h : x * 100000 - ⌊x * 100000⌋ = 1/2
  · have := roundHalfEven_tie_sym (x * 100000) m h
    have hc : ((roundHalfEven (x * 100000 + m) : ℤ) : ℚ)
        - (roundHalfEven (x * 100000 - m) : ℚ) = ((2 * m : ℤ) : ℚ) := by
      exact_mod_cast congrArg (fun z : ℤ => (z : ℚ)) this
    push_cast at hc ⊢
    field_simp
    linarith
  · rw [roundHalfEven_add_int _ m h,
      show x * 100000 - (m : ℚ) = x * 100000 + ((-m : ℤ) : ℚ) from by push_cast; ring,
      roundHalfEven_add_int _ (-m) h]
    push_cast
    ring

/-! ## History synthesizer (`_generate_dummy_historical`, lines 184-223) -/

/-- One OHLC bar dict (lines 212-219).  The timestamp is modelled in whole
minutes (an integer), since the code spaces bars by exact
`timedelta(minutes=...)` steps from `end_time`. -/
structure Bar where
  timestamp : ℤ
  open_price : ℚ
  high : ℚ
  low : ℚ
  close : ℚ
  volume : ℕ
deriving DecidableEq

/-- The `period_hours` lookup with default 24 (lines 188, 191). -/
def periodHoursOf (period : String) : ℕ :=
  if period = "1d" then 24
  else if period = "5d" then 120
  else if period = "1mo" then 720
  else 24

/-- The `interval_minutes` lookup with default 1 (lines 189, 192). -/
def intervalMinutesOf (interval : String) : ℕ :=
  if interval = "1m" then 1
  else if interval = "5m" then 5
  else if interval = "15m" then 15
  else if interval = "1h" then 60
  else 1

/-- The loop body of `_generate_dummy_historical` (lines 201-221), producing
the bars for indices `i, i+1, ...` while `rem` bars remain, carrying the
chained `current_price` (the unrounded `close` of the previous bar).
`rs j` packages the three `random.random()` draws and the volume
`random.randint(100, 1000)` draw consumed by bar `j`. -/
def histBars (symbol : String) (rs : ℕ → ℚ × ℚ × ℚ × ℕ) (nowMin : ℤ)
    (minutes data_points : ℕ) : ℕ → ℕ → ℚ → List Bar
  | _, 0, _ => []
  | i, rem + 1, current_price =>
    let r1 := (rs i).1
    let r2 := (rs i).2.1
    let r3 := (rs i).2.2.1
    let v := (rs i).2.2.2
    let volatility := if containsJPY symbol then (0.01 : ℚ) else 0.0001
    let high := current_price + r1 * volatility
    let low := current_price - r2 * volatility
    let close := low + r3 * (high - low)
    { timestamp := nowMin - (minutes : ℤ) * ((data_points : ℤ) - (i : ℤ) - 1)
      open_price := round5 current_price
      high := round5 high
      low := round5 low
      close := round5 close
      volume := v } ::
      histBars symbol rs nowMin minutes data_points (i + 1) rem close

/-- `PriceService._generate_dummy_historical` (lines 184-223).  `nowMin` is
`datetime.now()` in whole minutes; `rs` the random draws per bar. -/
def generate_dummy_historical (symbol period interval : String)
    (state : PriceState) (nowMin : ℤ) (rs : ℕ → ℚ × ℚ × ℚ × ℕ) : List Bar :=
  let hours := periodHoursOf period
  let minutes := intervalMinutesOf interval
  let data_points := hours * 60 / minutes
  let current_price := (state symbol).getD 1.2000
  histBars symbol rs nowMin minutes data_points 0 data_points current_price

/-! ## CLI (`main`, lines 225-280) -/

/-- Numeric value of a list of decimal digit characters. -/
def digitsVal (l : List Char) : ℕ :=
  l.foldl (fun acc c => 10 * acc + (c.toNat - '0'.toNat)) 0

/-- Unsigned part of a Python `float()` literal: digits with an optional
decimal point, at least one digit in total. -/
def parseUnsigned (s : List Char) : Option ℚ :=
  let intPart := s.takeWhile Char.isDigit
  let rest := s.dropWhile Char.isDigit
  match rest with
  | [] => if intPart.isEmpty then none else some (digitsVal intPart)
  | '.' :: frac =>
    if frac.all Char.isDigit ∧ (intPart ≠ [] ∨ frac ≠ []) then
      some ((digitsVal intPart : ℚ) + (digitsVal frac : ℚ) / 10 ^ frac.length)
    else none
  | _ => none

/-- Modelled from Python's built-in `float(str)`, restricted to the token
shapes this development evaluates it on: a plain decimal literal (optional
sign, digits, optional decimal point) parses to its exact value, and a
non-numeric word such as `abc` — on which `float()` raises `ValueError` —
yields `none`.  Other forms `float()` accepts (exponent literals, `inf`/`nan`,
surrounding whitespace, digit-group underscores) are outside this fragment
and not modelled; no theorem below applies this function to them. -/
def pythonFloat? (s : String) : Option ℚ :=
  match s.toList with
  | '-' :: rest => (parseUnsigned rest).map (fun q => -q)
  | '+' :: rest => parseUnsigned rest
  | l => parseUnsigned l

/-- What `main` emits on stdout: a usage/error message, one quote as JSON, or
a history series as JSON. -/
inductive MainOut where
  | msg (lines : List String)
  | priceJson (q : Quote)
  | histJson (bars : List Bar)
deriving DecidableEq

/-- The ambient effects consumed by one `main` invocation: the External Quote
Adapter's result, the random draws, and the two clock readings. -/
structure Env where
  externalResult : Option Quote
  r1 : ℚ
  k : ℕ
  v : ℕ
  nowIso : String
  nowMin : ℤ
  rs : ℕ → ℚ × ℚ × ℚ × ℕ

/-- The usage text printed when no command is given (lines 228-231). -/
def usageLines : List String :=
  ["Usage: python priceService.py <command> [args]",
   "Commands:",
   "  price <symbol> [--real] [--base-price <price>]",
   "  historical <symbol> [--period <period>] [--interval <interval>]"]

/-- `main` (lines 225-280), here named `cliMain` since Lean reserves `main`, on `argv = sys.argv[1:]` (the script name, which
is assumed not to collide with any flag token, is dropped; index arithmetic
is adjusted accordingly).  `Except.error` models an uncaught Python
exception terminating the process; the only such site is
`float(sys.argv[idx + 1])` on line 249. -/
def cliMain (argv : List String) (env : Env) (state : PriceState) :
    Except String MainOut :=
  match argv with
  | [] => Except.ok (MainOut.msg usageLines)
  | command :: rest =>
    if command = "price" then
      match rest with
      | [] => Except.ok (MainOut.msg ["Error: Symbol required"])
      | symbol :: _ =>
        let use_real := argv.contains "--real"
        let basePriceStep : Except String (Option ℚ) :=
          if argv.contains "--base-price" then
            let idx := argv.indexOf "--base-price"
            match argv.get? (idx + 1) with
            | some tok =>
              match pythonFloat? tok with
              | some q => Except.ok (some q)
              | none => Except.error
                  "ValueError: could not convert string to float"
            | none => Except.ok none
          else Except.ok none
        match basePriceStep with
        | Except.error e => Except.error e
        | Except.ok base_price =>
          Except.ok (MainOut.priceJson
            (get_price env.externalResult use_real symbol base_price state
              env.r1 env.k env.v env.nowIso).1)
    else if command = "historical" then
      match rest with
      | [] => Except.ok (MainOut.msg ["Error: Symbol required"])
      | symbol :: _ =>
        let period :=
          if argv.contains "--period" then
            (argv.get? (argv.indexOf "--period" + 1)).getD "1d"
          else "1d"
        let interval :=
          if argv.contains "--interval" then
            (argv.get? (argv.indexOf "--interval" + 1)).getD "1m"
          else "1m"
        Except.ok (MainOut.histJson
          (generate_dummy_historical symbol period interval state
            env.nowMin env.rs))
    else Except.ok (MainOut.msg ["Unknown command: " ++ command])

/-! ## Quote generator bounds -/

theorem clampedPrice_bounds (symbol : String) (basePrice? : Option ℚ)
    (state : PriceState) (r1 : ℚ) (hb : 0 ≤ resolvedBase symbol basePrice?) :
    resolvedBase symbol basePrice? * 0.95 ≤ clampedPrice symbol basePrice? state r1
    ∧ clampedPrice symbol basePrice? state r1 ≤ resolvedBase symbol basePrice? * 1.05 := by
  simp only [clampedPrice]
  constructor
  · exact le_max_left _ _
  · apply max_le
    · exact mul_le_mul_of_nonneg_left (by norm_num) hb
    · exact min_le_left _ _

theorem generate_price_bounds (symbol : String) (basePrice? : Option ℚ)
    (state : PriceState) (r1 : ℚ) (k v : ℕ) (now : String)
    (hb : 0 ≤ resolvedBase symbol basePrice?) :
    resolvedBase symbol basePrice? * 0.95 - 1/200000
      ≤ (generate_dummy_price symbol basePrice? state r1 k v now).1.price
    ∧ (generate_dummy_price symbol basePrice? state r1 k v now).1.price
      ≤ resolvedBase symbol basePrice? * 1.05 + 1/200000 := by
  have hcb := clampedPrice_bounds symbol basePrice? state r1 hb
  have habs := abs_round5_sub (clampedPrice symbol basePrice? state r1)
  rw [abs_le] at habs
  have hpr : (generate_dummy_price symbol basePrice? state r1 k v now).1.price
      = round5 (clampedPrice symbol basePrice? state r1) := rfl
  rw [hpr]
  constructor <;> linarith [habs.1, habs.2, hcb.1, hcb.2]

theorem generateSeq_price_bounds (symbol : String) (basePrice? : Option ℚ)
    (hb : 0 ≤ resolvedBase symbol basePrice?) :
    ∀ (calls : List (ℚ × ℕ × ℕ × String)) (state : PriceState) (q : Quote),
      q ∈ (generateSeq symbol basePrice? calls state).1 →
      resolvedBase symbol basePrice? * 0.95 - 1/200000 ≤ q.price
      ∧ q.price ≤ resolvedBase symbol basePrice? * 1.05 + 1/200000 := by
  intro calls
  induction calls with
  | nil => intro state q hq; simp [generateSeq] at hq
  | cons c rest ih =>
    intro state q hq
    simp only [generateSeq, List.mem_cons] at hq
    rcases hq with rfl | hq
    · exact generate_price_bounds symbol basePrice? state c.1 c.2.1 c.2.2.1 c.2.2.2 hb
    · exact ih _ _ hq

/-- C1: the claim as stated is false: for the explicit base price `0.000101`
on `EUR/USD`, one call whose `random.random()` draw is `0.9` clamps the new
price to the upper bound `1.05 * 0.000101 = 0.00010605`, and the 5-decimal
rounding of the returned `price` field (`0.00011`) lands strictly above
`1.05 * base_price`. -/
theorem C1_counterexample :
    ¬ (resolvedBase "EUR/USD" (some (101/1000000)) * 0.95
        ≤ (generate_dummy_price "EUR/USD" (some (101/1000000)) emptyState
            (9/10) 1 100 "t").1.price
      ∧ (generate_dummy_price "EUR/USD" (some (101/1000000)) emptyState
            (9/10) 1 100 "t").1.price
        ≤ resolvedBase "EUR/USD" (some (101/1000000)) * 1.05) := by
  have hJ : containsJPY "EUR/USD" = false := by decide
  simp only [generate_dummy_price, clampedPrice, resolvedBase, defaultPrice,
    volatilityOf, pipOf, emptyState, hJ, Option.getD_some, Option.getD_none,
    if_false, Bool.false_eq_true]
  norm_num [round5, roundHalfEven, max_def, min_def]

/-- C1 (amended): for every nonnegative resolved base price, the clamped
pre-rounding price (the value persisted into `last_prices`) lies within
`[0.95 * base_price, 1.05 * base_price]` on every call, and the `price` field
of every Quote returned over any sequence of successive calls lies within
that interval widened by half an ulp (`5e-6`) on each side. -/
theorem C1_clamp_invariant (symbol : String) (basePrice? : Option ℚ)
    (hb : 0 ≤ resolvedBase symbol basePrice?) :
    (∀ (state : PriceState) (r1 : ℚ),
      resolvedBase symbol basePrice? * 0.95 ≤ clampedPrice symbol basePrice? state r1
      ∧ clampedPrice symbol basePrice? state r1 ≤ resolvedBase symbol basePrice? * 1.05)
    ∧ ∀ (calls : List (ℚ × ℕ × ℕ × String)) (state : PriceState) (q : Quote),
        q ∈ (generateSeq symbol basePrice? calls state).1 →
        resolvedBase symbol basePrice? * 0.95 - 1/200000 ≤ q.price
        ∧ q.price ≤ resolvedBase symbol basePrice? * 1.05 + 1/200000 :=
  ⟨fun state r1 => clampedPrice_bounds symbol basePrice? state r1 hb,
   generateSeq_price_bounds symbol basePrice? hb⟩

/-- Witness for C1 (amended) at the default `EUR/USD` base price `1.2`. -/
theorem C1_clamp_invariant_witness :
    0 ≤ resolvedBase "EUR/USD" none
    ∧ (resolvedBase "EUR/USD" none * 0.95 ≤ clampedPrice "EUR/USD" none emptyState (1/2)
      ∧ clampedPrice "EUR/USD" none emptyState (1/2) ≤ resolvedBase "EUR/USD" none * 1.05) :=
  ⟨by norm_num [resolvedBase, defaultPrice],
   (C1_clamp_invariant "EUR/USD" none (by norm_num [resolvedBase, defaultPrice])).1
     emptyState (1/2)⟩

/-! ## Spread placement (C2) -/

theorem pipOf_pos (symbol : String) : 0 < pipOf symbol := by
  unfold pipOf
  split_ifs <;> norm_num

/-- C2: the claim as stated is false: when the clamped price lands exactly on
a 5th-decimal half-tie (here base price `0.000005` with a centred random draw,
so `new_price * 10^5 = 0.5`), banker's rounding moves the rounded `bid` and
`ask` by a full ulp each and `bid = price - spread/2` fails on the returned
fields (`bid = -0.00004` but `price - spread/2 = -0.00005`). -/
theorem C2_counterexample :
    ¬ ((generate_dummy_price "X" (some (1/200000)) emptyState (1/2) 1 100 "t").1.bid
        = (generate_dummy_price "X" (some (1/200000)) emptyState (1/2) 1 100 "t").1.price
          - pipOf "X" * 1 / 2) := by
  have hJ : containsJPY "X" = false := by decide
  simp only [generate_dummy_price, clampedPrice, resolvedBase, defaultPrice,
    volatilityOf, pipOf, emptyState, hJ, Option.getD_some, Option.getD_none,
    if_false, Bool.false_eq_true]
  norm_num [round5, roundHalfEven, max_def, min_def]


/-- C2 (amended): `|ask - bid| = pip_size * k` for the drawn `k ∈ {1,2,3}`
always holds on the returned rounded fields (`pip_size` being `0.01` for
symbols containing "JPY", else `0.0001`); and whenever the clamped new price
is not an exact 5th-decimal half-tie (always true of binary floating-point
values), `bid = price - spread/2` and `ask = price + spread/2` hold exactly
on the returned rounded fields. -/
theorem C2_spread_relation (symbol : String) (basePrice? : Option ℚ)
    (state : PriceState) (r1 : ℚ) (k v : ℕ) (now : String)
    (hk1 : 1 ≤ k) (hk3 : k ≤ 3) :
    (∃ kk : ℕ, (kk = 1 ∨ kk = 2 ∨ kk = 3)
      ∧ |(generate_dummy_price symbol basePrice? state r1 k v now).1.ask
          - (generate_dummy_price symbol basePrice? state r1 k v now).1.bid|
        = pipOf symbol * kk)
    ∧ (clampedPrice symbol basePrice? state r1 * 100000
          - ⌊clampedPrice symbol basePrice? state r1 * 100000⌋ ≠ 1/2 →
        (generate_dummy_price symbol basePrice? state r1 k v now).1.bid
          = (generate_dummy_price symbol basePrice? state r1 k v now).1.price
            - pipOf symbol * k / 2
        ∧ (generate_dummy_price symbol basePrice? state r1 k v now).1.ask
          = (generate_dummy_price symbol basePrice? state r1 k v now).1.price
            + pipOf symbol * k / 2) := by
  set p := clampedPrice symbol basePrice? state r1 with hp
  obtain ⟨m, hm, hm2⟩ : ∃ m : ℤ,
      pipOf symbol * k / 2 = (m : ℚ) / 100000
      ∧ 2 * (m : ℚ) / 100000 = pipOf symbol * k := by
    cases hc : containsJPY symbol
    · refine ⟨5 * k, ?_, ?_⟩ <;>
        · simp only [pipOf, hc, Bool.false_eq_true, if_false]
          push_cast
          ring
    · refine ⟨500 * k, ?_, ?_⟩ <;>
        · simp only [pipOf, hc, if_true]
          push_cast
          ring
  have hbid : (generate_dummy_price symbol basePrice? state r1 k v now).1.bid
      = round5 (p - (m : ℚ) / 100000) := by
    rw [← hm]; rfl
  have hask : (generate_dummy_price symbol basePrice? state r1 k v now).1.ask
      = round5 (p + (m : ℚ) / 100000) := by
    rw [← hm]; rfl
  have hprice : (generate_dummy_price symbol basePrice? state r1 k v now).1.price
      = round5 p := rfl
  constructor
  · refine ⟨k, by omega, ?_⟩
    rw [hask, hbid, round5_sub_sym p m]
    have hnn : (0 : ℚ) ≤ 2 * (m : ℚ) / 100000 := by
      rw [hm2]
      exact mul_nonneg (le_of_lt (pipOf_pos symbol)) (Nat.cast_nonneg k)
    rw [abs_of_nonneg hnn, hm2]
  · intro hnotie
    have hb := round5_add_int_mul p (-m) hnotie
    have ha := round5_add_int_mul p m hnotie
    rw [show p + ((-m : ℤ) : ℚ) / 100000 = p - (m : ℚ) / 100000 from by
      push_cast; ring] at hb
    constructor
    · rw [hbid, hprice, hb, hm]
      push_cast
      ring
    · rw [hask, hprice, ha, hm]

/-- Witness for C2 (amended) on `EUR/USD` with spread draw `k = 2`. -/
theorem C2_spread_relation_witness :
    (1 : ℕ) ≤ 2 ∧ (2 : ℕ) ≤ 3
    ∧ ((∃ kk : ℕ, (kk = 1 ∨ kk = 2 ∨ kk = 3)
        ∧ |(generate_dummy_price "EUR/USD" none emptyState (1/2) 2 100 "t").1.ask
            - (generate_dummy_price "EUR/USD" none emptyState (1/2) 2 100 "t").1.bid|
          = pipOf "EUR/USD" * (kk : ℚ))
      ∧ (clampedPrice "EUR/USD" none emptyState (1/2) * 100000
            - ⌊clampedPrice "EUR/USD" none emptyState (1/2) * 100000⌋ ≠ 1/2 →
          (generate_dummy_price "EUR/USD" none emptyState (1/2) 2 100 "t").1.bid
            = (generate_dummy_price "EUR/USD" none emptyState (1/2) 2 100 "t").1.price
              - pipOf "EUR/USD" * ((2 : ℕ) : ℚ) / 2
          ∧ (generate_dummy_price "EUR/USD" none emptyState (1/2) 2 100 "t").1.ask
            = (generate_dummy_price "EUR/USD" none emptyState (1/2) 2 100 "t").1.price
              + pipOf "EUR/USD" * ((2 : ℕ) : ℚ) / 2)) :=
  ⟨by norm_num, by norm_num,
   C2_spread_relation "EUR/USD" none emptyState (1/2) 2 100 "t"
     (by norm_num) (by norm_num)⟩

/-! ## History synthesizer lemmas -/

theorem histBars_length (symbol : String) (rs : ℕ → ℚ × ℚ × ℚ × ℕ)
    (nowMin : ℤ) (minutes data_points : ℕ) :
    ∀ (n i : ℕ) (cur : ℚ),
      (histBars symbol rs nowMin minutes data_points i n cur).length = n := by
  intro n
  induction n with
  | zero => intro i cur; rfl
  | succ n ih =>
    intro i cur
    simp only [histBars, List.length_cons, ih]

/-- C3: the history series length equals
`floor(period_hours * 60 / interval_minutes)` under the two lookup tables,
with unrecognized periods falling back to 24 hours, unrecognized intervals to
1 minute, and fully unrecognized inputs yielding 1440 bars. -/
theorem C3_history_length (symbol period interval : String) (state : PriceState)
    (nowMin : ℤ) (rs : ℕ → ℚ × ℚ × ℚ × ℕ) :
    (generate_dummy_historical symbol period interval state nowMin rs).length
      = periodHoursOf period * 60 / intervalMinutesOf interval
    ∧ (periodHoursOf "1d" = 24 ∧ periodHoursOf "5d" = 120 ∧ periodHoursOf "1mo" = 720)
    ∧ (intervalMinutesOf "1m" = 1 ∧ intervalMinutesOf "5m" = 5
      ∧ intervalMinutesOf "15m" = 15 ∧ intervalMinutesOf "1h" = 60)
    ∧ (∀ p, p ≠ "1d" → p ≠ "5d" → p ≠ "1mo" → periodHoursOf p = 24)
    ∧ (∀ iv, iv ≠ "1m" → iv ≠ "5m" → iv ≠ "15m" → iv ≠ "1h" →
        intervalMinutesOf iv = 1)
    ∧ (∀ p iv, p ≠ "1d" → p ≠ "5d" → p ≠ "1mo" →
        iv ≠ "1m" → iv ≠ "5m" → iv ≠ "15m" → iv ≠ "1h" →
        (generate_dummy_historical symbol p iv state nowMin rs).length = 1440) := by
  refine ⟨?_, ⟨by decide, by decide, by decide⟩,
    ⟨by decide, by decide, by decide, by decide⟩, ?_, ?_, ?_⟩
  · simp only [generate_dummy_historical, histBars_length]
  · intro p h1 h2 h3
    simp [periodHoursOf, h1, h2, h3]
  · intro iv h1 h2 h3 h4
    simp [intervalMinutesOf, h1, h2, h3, h4]
  · intro p iv h1 h2 h3 h4 h5 h6 h7
    simp [generate_dummy_historical, histBars_length, periodHoursOf,
      intervalMinutesOf, h1, h2, h3, h4, h5, h6, h7]

/-- Witness for C3 at the unrecognized pair `("2y", "90m")`. -/
theorem C3_history_length_witness :
    (generate_dummy_historical "EUR/USD" "2y" "90m" emptyState 0
        (fun _ => (0, 0, 0, 100))).length = 1440 :=
  (C3_history_length "EUR/USD" "2y" "90m" emptyState 0
      (fun _ => (0, 0, 0, 100))).2.2.2.2.2 "2y" "90m"
    (by decide) (by decide) (by decide) (by decide) (by decide) (by decide)
    (by decide)

theorem histBars_fields (symbol : String) (rs : ℕ → ℚ × ℚ × ℚ × ℕ)
    (nowMin : ℤ) (minutes data_points : ℕ)
    (hr : ∀ j, 0 ≤ (rs j).1 ∧ (rs j).1 < 1 ∧ 0 ≤ (rs j).2.1 ∧ (rs j).2.1 < 1
      ∧ 0 ≤ (rs j).2.2.1 ∧ (rs j).2.2.1 < 1) :
    ∀ (n i : ℕ) (cur : ℚ) (b : Bar),
      b ∈ histBars symbol rs nowMin minutes data_points i n cur →
      b.low ≤ b.open_price ∧ b.open_price ≤ b.high
      ∧ b.low ≤ b.close ∧ b.close ≤ b.high := by
  intro n
  induction n with
  | zero => intro i cur b hb; simp [histBars] at hb
  | succ n ih =>
    intro i cur b hb
    simp only [histBars, List.mem_cons] at hb
    rcases hb with rfl | hb
    · obtain ⟨h1, h2, h3, h4, h5, h6⟩ := hr i
      have hvpos : (0 : ℚ) < if containsJPY symbol then (0.01 : ℚ) else 0.0001 := by
        split_ifs <;> norm_num
      set vol := if containsJPY symbol then (0.01 : ℚ) else 0.0001 with hv
      have hlo : cur - (rs i).2.1 * vol ≤ cur := by nlinarith
      have hhi : cur ≤ cur + (rs i).1 * vol := by nlinarith
      have hspan : cur - (rs i).2.1 * vol ≤ cur + (rs i).1 * vol := le_trans hlo hhi
      have hcl : cur - (rs i).2.1 * vol
          ≤ cur - (rs i).2.1 * vol
            + (rs i).2.2.1 * (cur + (rs i).1 * vol - (cur - (rs i).2.1 * vol)) := by
        nlinarith
      have hch : cur - (rs i).2.1 * vol
          + (rs i).2.2.1 * (cur + (rs i).1 * vol - (cur - (rs i).2.1 * vol))
          ≤ cur + (rs i).1 * vol := by
        nlinarith
      exact ⟨round5_mono hlo, round5_mono hhi, round5_mono hcl, round5_mono hch⟩
    · exact ih _ _ _ hb

/-- C4: the claim as stated is false: there is no valid run of the history
synthesizer (random draws in `[0,1)`) containing a bar that violates
`low <= open <= high` — the construction `high = open + r*vol`,
`low = open - r*vol` with nonnegative draws forces the ordering on every bar,
so the claimed existence of a violating bar is refuted. -/
theorem C4_counterexample :
    ¬ ∃ (symbol period interval : String) (state : PriceState) (nowMin : ℤ)
        (rs : ℕ → ℚ × ℚ × ℚ × ℕ),
        (∀ j, 0 ≤ (rs j).1 ∧ (rs j).1 < 1 ∧ 0 ≤ (rs j).2.1 ∧ (rs j).2.1 < 1
          ∧ 0 ≤ (rs j).2.2.1 ∧ (rs j).2.2.1 < 1)
        ∧ ∃ b ∈ generate_dummy_historical symbol period interval state nowMin rs,
            ¬ (b.low ≤ b.open_price ∧ b.open_price ≤ b.high) := by
  rintro ⟨symbol, period, interval, state, nowMin, rs, hr, b, hb, hviol⟩
  simp only [generate_dummy_historical] at hb
  have h := histBars_fields symbol rs nowMin _ _ hr _ _ _ b hb
  exact hviol ⟨h.1, h.2.1⟩

/-- C4 (amended): on every valid run of the history synthesizer (random draws
in `[0,1)`), every returned bar satisfies `low <= open <= high` on the rounded
fields: the ordering IS guaranteed by construction. -/
theorem C4_bar_ordering (symbol period interval : String) (state : PriceState)
    (nowMin : ℤ) (rs : ℕ → ℚ × ℚ × ℚ × ℕ)
    (hr : ∀ j, 0 ≤ (rs j).1 ∧ (rs j).1 < 1 ∧ 0 ≤ (rs j).2.1 ∧ (rs j).2.1 < 1
      ∧ 0 ≤ (rs j).2.2.1 ∧ (rs j).2.2.1 < 1) :
    ∀ b ∈ generate_dummy_historical symbol period interval state nowMin rs,
      b.low ≤ b.open_price ∧ b.open_price ≤ b.high := by
  intro b hb
  simp only [generate_dummy_historical] at hb
  have h := histBars_fields symbol rs nowMin _ _ hr _ _ _ b hb
  exact ⟨h.1, h.2.1⟩

/-- C5: on every valid run of the history synthesizer (random draws in
`[0,1)`), every returned bar's `close` lies within `[low, high]` on the
rounded fields. -/
theorem C5_close_within (symbol period interval : String) (state : PriceState)
    (nowMin : ℤ) (rs : ℕ → ℚ × ℚ × ℚ × ℕ)
    (hr : ∀ j, 0 ≤ (rs j).1 ∧ (rs j).1 < 1 ∧ 0 ≤ (rs j).2.1 ∧ (rs j).2.1 < 1
      ∧ 0 ≤ (rs j).2.2.1 ∧ (rs j).2.2.1 < 1) :
    ∀ b ∈ generate_dummy_historical symbol period interval state nowMin rs,
      b.low ≤ b.close ∧ b.close ≤ b.high := by
  intro b hb
  simp only [generate_dummy_historical] at hb
  have h := histBars_fields symbol rs nowMin _ _ hr _ _ _ b hb
  exact ⟨h.2.2.1, h.2.2.2⟩

/-- Concrete evaluation of the first bar of a `("1d", "1h")` history run with
all `random.random()` draws equal to `1/2`. -/
theorem histHeadBar :
    (generate_dummy_historical "EUR/USD" "1d" "1h" emptyState 0
        (fun _ => (1/2, 1/2, 1/2, 100))).get? 0
      = some ⟨-1380, 1.2, 1.20005, 1.19995, 1.2, 100⟩ := by
  have h24 : periodHoursOf "1d" * 60 / intervalMinutesOf "1h" = 23 + 1 := by decide
  have h60 : intervalMinutesOf "1h" = 60 := by decide
  have hJ : containsJPY "EUR/USD" = false := by decide
  simp only [generate_dummy_historical, h24, emptyState, Option.getD_none]
  simp only [histBars, List.get?_cons_zero, Option.some.injEq, Bar.mk.injEq]
  norm_num [hJ, h60, round5, roundHalfEven]

/-- Witness for C4 (amended) at the first bar of a concrete run. -/
theorem C4_bar_ordering_witness :
    (generate_dummy_historical "EUR/USD" "1d" "1h" emptyState 0
        (fun _ => (1/2, 1/2, 1/2, 100))).get? 0
      = some ⟨-1380, 1.2, 1.20005, 1.19995, 1.2, 100⟩
    ∧ ((1.19995 : ℚ) ≤ 1.2 ∧ (1.2 : ℚ) ≤ 1.20005) :=
  ⟨histHeadBar,
   C4_bar_ordering "EUR/USD" "1d" "1h" emptyState 0
     (fun _ => (1/2, 1/2, 1/2, 100)) (fun _ => by norm_num)
     ⟨-1380, 1.2, 1.20005, 1.19995, 1.2, 100⟩ (List.get?_mem histHeadBar)⟩

/-- Witness for C5 at the first bar of a concrete run. -/
theorem C5_close_within_witness :
    (generate_dummy_historical "EUR/USD" "1d" "1h" emptyState 0
        (fun _ => (1/2, 1/2, 1/2, 100))).get? 0
      = some ⟨-1380, 1.2, 1.20005, 1.19995, 1.2, 100⟩
    ∧ ((1.19995 : ℚ) ≤ 1.2 ∧ (1.2 : ℚ) ≤ 1.20005) :=
  ⟨histHeadBar,
   C5_close_within "EUR/USD" "1d" "1h" emptyState 0
     (fun _ => (1/2, 1/2, 1/2, 100)) (fun _ => by norm_num)
     ⟨-1380, 1.2, 1.20005, 1.19995, 1.2, 100⟩ (List.get?_mem histHeadBar)⟩

theorem histBars_map_timestamp (symbol : String) (rs : ℕ → ℚ × ℚ × ℚ × ℕ)
    (nowMin : ℤ) (minutes data_points : ℕ) :
    ∀ (n i : ℕ) (cur : ℚ),
      (histBars symbol rs nowMin minutes data_points i n cur).map Bar.timestamp
        = (List.range n).map
            (fun (j : ℕ) => nowMin
              - (minutes : ℤ) * ((data_points : ℤ) - (i : ℤ) - (j : ℤ) - 1)) := by
  intro n
  induction n with
  | zero => intro i cur; rfl
  | succ n ih =>
    intro i cur
    rw [List.range_succ_eq_map]
    simp only [histBars, List.map_cons, List.map_map]
    congr 1
    · push_cast
      ring
    · rw [ih]
      apply List.map_congr_left
      intro j hj
      simp only [Function.comp_apply]
      push_cast
      ring

theorem intervalMinutesOf_pos (interval : String) : 1 ≤ intervalMinutesOf interval := by
  unfold intervalMinutesOf
  split_ifs <;> norm_num

theorem chainStep_range (m : ℤ) :
    ∀ (n : ℕ) (g : ℕ → ℤ), (∀ j, g (j + 1) = g j + m) →
      List.Chain' (fun a b => b = a + m) ((List.range n).map g) := by
  intro n
  induction n with
  | zero => intro g hg; simp
  | succ n ih =>
    intro g hg
    rw [List.range_succ_eq_map, List.map_cons, List.map_map]
    rw [List.chain'_cons']
    constructor
    · intro y hy
      cases n with
      | zero => simp at hy
      | succ n' =>
        rw [List.range_succ_eq_map, List.map_cons, List.head?_cons,
          Option.mem_some_iff] at hy
        rw [← hy]
        exact hg 0
    · exact ih (g ∘ Nat.succ) (fun j => hg (j + 1))

/-- C6: the history series is ordered oldest-to-newest: bar `j`'s timestamp is
`now - (bar_count - j - 1) * interval_minutes` (timestamps in whole minutes),
so timestamps are strictly increasing and consecutive bars are spaced exactly
`interval_minutes` apart. -/
theorem C6_history_timestamps (symbol period interval : String)
    (state : PriceState) (nowMin : ℤ) (rs : ℕ → ℚ × ℚ × ℚ × ℕ) :
    (generate_dummy_historical symbol period interval state nowMin rs).map
        Bar.timestamp
      = (List.range (periodHoursOf period * 60 / intervalMinutesOf interval)).map
          (fun (j : ℕ) => nowMin
            - (intervalMinutesOf interval : ℤ)
              * ((periodHoursOf period * 60 / intervalMinutesOf interval : ℕ)
                  - (j : ℤ) - 1))
    ∧ List.Pairwise (· < ·)
        ((generate_dummy_historical symbol period interval state nowMin rs).map
          Bar.timestamp)
    ∧ List.Chain' (fun a b => b = a + (intervalMinutesOf interval : ℤ))
        ((generate_dummy_historical symbol period interval state nowMin rs).map
          Bar.timestamp) := by
  have hmap : (generate_dummy_historical symbol period interval state nowMin rs).map
        Bar.timestamp
      = (List.range (periodHoursOf period * 60 / intervalMinutesOf interval)).map
          (fun (j : ℕ) => nowMin
            - (intervalMinutesOf interval : ℤ)
              * ((periodHoursOf period * 60 / intervalMinutesOf interval : ℕ)
                  - (j : ℤ) - 1)) := by
    simp only [generate_dummy_historical]
    rw [histBars_map_timestamp]
    apply List.map_congr_left
    intro j hj
    push_cast
    ring
  have hm1 : (1 : ℤ) ≤ (intervalMinutesOf interval : ℤ) := by
    exact_mod_cast intervalMinutesOf_pos interval
  refine ⟨hmap, ?_, ?_⟩
  · rw [hmap, List.pairwise_map]
    apply List.Pairwise.imp ?_ (List.pairwise_lt_range _)
    intro a b hab
    have hab' : (a : ℤ) < (b : ℤ) := by exact_mod_cast hab
    nlinarith
  · rw [hmap]
    apply chainStep_range
    intro j
    push_cast
    ring

/-! ## Facade, determinism, state/price relation, CLI -/

/-- C7: when `use_real_data` is true and the External Quote Adapter returns a
quote, `get_price` returns that quote unchanged and the per-symbol
`last_prices` state is untouched (the synthetic generator contributes nothing
to the result). -/
theorem C7_external_passthrough (q : Quote) (symbol : String)
    (basePrice? : Option ℚ) (state : PriceState) (r1 : ℚ) (k v : ℕ)
    (now : String) :
    get_price (some q) true symbol basePrice? state r1 k v now = (q, state) := rfl

/-- C9: the claim as stated is false: with the random draws and prior state
fixed, two runs at different wall-clock instants return quotes whose
`timestamp` fields differ, so the quotes are not equal in all fields. -/
theorem C9_counterexample :
    (generate_dummy_price "EUR/USD" none emptyState (1/2) 1 100
        "2024-01-01T00:00:00").1
      ≠ (generate_dummy_price "EUR/USD" none emptyState (1/2) 1 100
        "2024-01-01T00:00:01").1 := by
  intro h
  exact absurd (congrArg Quote.timestamp h) (by decide)

/-- C9 (amended): with the random draws and prior state fixed, two runs agree
on every field except `timestamp` (and on the updated state), and two runs
with the same wall-clock reading produce fully identical outputs. -/
theorem C9_determinism (symbol : String) (basePrice? : Option ℚ)
    (state : PriceState) (r1 : ℚ) (k v : ℕ) (now now' : String) :
    (generate_dummy_price symbol basePrice? state r1 k v now).1.symbol
      = (generate_dummy_price symbol basePrice? state r1 k v now').1.symbol
    ∧ (generate_dummy_price symbol basePrice? state r1 k v now).1.price
      = (generate_dummy_price symbol basePrice? state r1 k v now').1.price
    ∧ (generate_dummy_price symbol basePrice? state r1 k v now).1.bid
      = (generate_dummy_price symbol basePrice? state r1 k v now').1.bid
    ∧ (generate_dummy_price symbol basePrice? state r1 k v now).1.ask
      = (generate_dummy_price symbol basePrice? state r1 k v now').1.ask
    ∧ (generate_dummy_price symbol basePrice? state r1 k v now).1.volume
      = (generate_dummy_price symbol basePrice? state r1 k v now').1.volume
    ∧ (generate_dummy_price symbol basePrice? state r1 k v now).1.source
      = (generate_dummy_price symbol basePrice? state r1 k v now').1.source
    ∧ (generate_dummy_price symbol basePrice? state r1 k v now).2
      = (generate_dummy_price symbol basePrice? state r1 k v now').2
    ∧ (now = now' →
        generate_dummy_price symbol basePrice? state r1 k v now
          = generate_dummy_price symbol basePrice? state r1 k v now') := by
  refine ⟨rfl, rfl, rfl, rfl, rfl, rfl, rfl, ?_⟩
  intro h
  rw [h]

/-- Witness for C9 (amended): identical clock readings give identical output. -/
theorem C9_determinism_witness :
    generate_dummy_price "EUR/USD" none emptyState (1/2) 1 100 "t"
      = generate_dummy_price "EUR/USD" none emptyState (1/2) 1 100 "t" :=
  (C9_determinism "EUR/USD" none emptyState (1/2) 1 100 "t" "t").2.2.2.2.2.2.2 rfl

/-- C10: every call persists the clamped pre-rounding price into
`last_prices` while the returned `price` field is that value rounded to 5
decimal places (within `5e-6` of it), and the next call's `last_price` reads
the stored unrounded value; concretely, with explicit base price `1.000003`
the stored value is `1.000003` but the reported price is `1.0`, a difference
of `3e-6 < 5e-6`. -/
theorem C10_state_stores_unrounded :
    (∀ (symbol : String) (basePrice? : Option ℚ) (state : PriceState) (r1 : ℚ)
        (k v : ℕ) (now : String),
      (generate_dummy_price symbol basePrice? state r1 k v now).2 symbol
          = some (clampedPrice symbol basePrice? state r1)
      ∧ (generate_dummy_price symbol basePrice? state r1 k v now).1.price
          = round5 (clampedPrice symbol basePrice? state r1)
      ∧ |clampedPrice symbol basePrice? state r1
          - (generate_dummy_price symbol basePrice? state r1 k v now).1.price|
          ≤ 1/200000
      ∧ ((generate_dummy_price symbol basePrice? state r1 k v now).2 symbol).getD
            (resolvedBase symbol basePrice?)
          = clampedPrice symbol basePrice? state r1)
    ∧ ((generate_dummy_price "EUR/USD" (some 1.000003) emptyState (1/2) 1 100 "t").2
          "EUR/USD" = some (1000003/1000000)
      ∧ (generate_dummy_price "EUR/USD" (some 1.000003) emptyState
          (1/2) 1 100 "t").1.price = 1
      ∧ ((1000003 : ℚ)/1000000) ≠ 1
      ∧ |(1000003 : ℚ)/1000000 - 1| < 1/200000) := by
  have hclamp : clampedPrice "EUR/USD" (some 1.000003) emptyState (1/2)
      = 1000003/1000000 := by
    have hJ : containsJPY "EUR/USD" = false := by decide
    simp only [clampedPrice, resolvedBase, volatilityOf, emptyState, hJ,
      Option.getD_some, Option.getD_none, if_false, Bool.false_eq_true]
    norm_num [max_def, min_def]
  constructor
  · intro symbol basePrice? state r1 k v now
    refine ⟨by simp [generate_dummy_price], rfl, ?_, by simp [generate_dummy_price]⟩
    have h := abs_round5_sub (clampedPrice symbol basePrice? state r1)
    rw [abs_sub_comm] at h
    exact h
  · refine ⟨?_, ?_, by norm_num, ?_⟩
    · show (if "EUR/USD" = "EUR/USD" then
          some (clampedPrice "EUR/USD" (some 1.000003) emptyState (1/2))
        else emptyState "EUR/USD") = some (1000003/1000000)
      rw [if_pos rfl, hclamp]
    · show round5 (clampedPrice "EUR/USD" (some 1.000003) emptyState (1/2)) = 1
      rw [hclamp]
      norm_num [round5, roundHalfEven]
    · rw [show (1000003 : ℚ)/1000000 - 1 = 3/1000000 from by norm_num,
        abs_of_nonneg (by norm_num : (0:ℚ) ≤ 3/1000000)]
      norm_num

/-- C8: the claim as stated is false: invoking
`price EUR/USD --base-price abc` reaches `float("abc")` on line 249, which
raises an uncaught `ValueError` and crashes the process instead of printing a
user-visible message. -/
theorem C8_counterexample :
    cliMain ["price", "EUR/USD", "--base-price", "abc"]
        ⟨none, 0, 1, 100, "t", 0, fun _ => (0, 0, 0, 100)⟩ emptyState
      = Except.error "ValueError: could not convert string to float" := rfl

/-- C8 (amended): missing arguments (no command, or a missing symbol for
either command) and an unknown command are reported as a user-visible message
without crashing.  A `--base-price` flag whose value token is absent also does
not crash, but it is NOT reported: the flag is silently ignored
(`base_price` stays `None`, line 248's bound check fails) and an ordinary
quote JSON is emitted.  A `--base-price` flag followed by a non-numeric token
such as `abc` raises an uncaught `ValueError` at line 249 (see the
counterexample), so the no-crash guarantee does not extend to malformed flag
values. -/
theorem C8_usage_errors :
    (∀ (env : Env) (state : PriceState),
      cliMain [] env state = Except.ok (MainOut.msg usageLines))
    ∧ (∀ (env : Env) (state : PriceState),
        cliMain ["price"] env state
          = Except.ok (MainOut.msg ["Error: Symbol required"]))
    ∧ (∀ (env : Env) (state : PriceState),
        cliMain ["historical"] env state
          = Except.ok (MainOut.msg ["Error: Symbol required"]))
    ∧ (∀ (c : String) (rest : List String) (env : Env) (state : PriceState),
        c ≠ "price" → c ≠ "historical" →
        cliMain (c :: rest) env state
          = Except.ok (MainOut.msg ["Unknown command: " ++ c]))
    ∧ (∀ (symbol : String) (env : Env) (state : PriceState),
        symbol ≠ "--base-price" →
        cliMain ["price", symbol, "--base-price"] env state
          = Except.ok (MainOut.priceJson
              (get_price env.externalResult
                (["price", symbol, "--base-price"].contains "--real") symbol none
                state env.r1 env.k env.v env.nowIso).1)) := by
  refine ⟨fun env state => rfl, fun env state => rfl, fun env state => rfl,
    ?_, ?_⟩
  · intro c rest env state h1 h2
    simp [cliMain, h1, h2]
  · intro symbol env state h
    have hbeq : (symbol == "--base-price") = false := beq_eq_false_iff_ne.mpr h
    simp [cliMain, List.indexOf, List.findIdx_cons, hbeq]

/-- Witness for C8 (amended) on the unknown command `foo`. -/
theorem C8_usage_errors_witness :
    cliMain ["foo"] ⟨none, 0, 1, 100, "t", 0, fun _ => (0, 0, 0, 100)⟩ emptyState
      = Except.ok (MainOut.msg ["Unknown command: " ++ "foo"]) :=
  C8_usage_errors.2.2.2.1 "foo" []
    ⟨none, 0, 1, 100, "t", 0, fun _ => (0, 0, 0, 100)⟩ emptyState
    (by decide) (by decide)
